import Mathlib

/-!
Verification development for the day-before explosion signal scanner
(`src/app.py`).  The scanner resolves a ticker universe through a fallback
chain of sources, fetches a daily bar series per ticker, derives technical
indicators, and evaluates a fixed conjunctive rule against the second-to-last
bar.  Prices, volumes and indicator values are embedded as rationals;
indicator values that pandas would represent as NaN (insufficient lookback)
are embedded as `Option` values, with every comparison against a missing
value evaluating to `false`, exactly as NaN comparisons do in the source.
-/

/-- One daily bar: closing price and traded volume (`df["Close"]`,
`df["Volume"]`).  The rule only reads these two raw fields. -/
structure Bar where
  close : ℚ
  volume : ℚ
deriving DecidableEq, Repr

/-- Per-bar indicator values produced by the external `ta` library
(RSI, ADX, +DI, -DI, %K, %D).  `none` models a NaN entry (insufficient
lookback). -/
structure TAValues where
  rsi : Option ℚ
  adx : Option ℚ
  plusDI : Option ℚ
  minusDI : Option ℚ
  percentK : Option ℚ
  percentD : Option ℚ
deriving DecidableEq, Repr

/-- A `TAValues` row with every indicator missing (all NaN). -/
def noneTA : TAValues := ⟨none, none, none, none, none, none⟩

/-- The full per-bar snapshot the rule of lines 160-168 reads: raw close and
volume plus the seven derived columns (`RSI`, `ADX`, `+DI`, `-DI`, `%K`,
`%D`, `Vol10Avg`). -/
structure Snapshot where
  close : ℚ
  volume : ℚ
  rsi : Option ℚ
  adx : Option ℚ
  plusDI : Option ℚ
  minusDI : Option ℚ
  percentK : Option ℚ
  percentD : Option ℚ
  vol10avg : Option ℚ
deriving DecidableEq, Repr

/-- The scanner thresholds of lines 112-115 (`min_price`, `max_price`,
`min_volume`, `min_adx`). -/
structure ScanCriteria where
  min_price : ℚ
  max_price : ℚ
  min_volume : ℚ
  min_adx : ℚ
deriving DecidableEq, Repr

/-- The default thresholds: `min_price = 3`, `max_price = 15`,
`min_volume = 500000`, `min_adx = 40` (lines 112-115). -/
def defaultCriteria : ScanCriteria := ⟨3, 15, 500000, 40⟩

/-- `x ≥ c` with NaN semantics: false when `x` is missing. -/
def oge (x : Option ℚ) (c : ℚ) : Bool :=
  match x with
  | some a => decide (c ≤ a)
  | none => false

/-- `x > c` with NaN semantics: false when `x` is missing. -/
def ogtc (x : Option ℚ) (c : ℚ) : Bool :=
  match x with
  | some a => decide (c < a)
  | none => false

/-- `x > y` with NaN semantics: false when either side is missing. -/
def ogt2 (x y : Option ℚ) : Bool :=
  match x, y with
  | some a, some b => decide (b < a)
  | _, _ => false

/-- `lo ≤ x ≤ hi` (the chained Python comparison) with NaN semantics. -/
def ochain (lo : ℚ) (x : Option ℚ) (hi : ℚ) : Bool :=
  match x with
  | some a => decide (lo ≤ a) && decide (a ≤ hi)
  | none => false

/-- `x - y` with NaN propagation. -/
def osub (x y : Option ℚ) : Option ℚ :=
  match x, y with
  | some a, some b => some (a - b)
  | _, _ => none

/-- `volume > 2 * vol10avg` with NaN semantics (line 168). -/
def volSurge (vol : ℚ) (x : Option ℚ) : Bool :=
  match x with
  | some a => decide (2 * a < vol)
  | none => false

/-- The conjunction of lines 160-168: price band, volume floor, ADX floor,
DI spread, RSI band, stochastic conditions and volume surge, in source
order.  Any NaN operand makes its comparison false, hence the whole
conjunction false. -/
def explosionCriteria (c : ScanCriteria) (y : Snapshot) : Bool :=
  decide (c.min_price ≤ y.close) && decide (y.close ≤ c.max_price) &&
  decide (c.min_volume < y.volume) &&
  oge y.adx c.min_adx &&
  oge (osub y.plusDI y.minusDI) 10 &&
  ochain 60 y.rsi 75 &&
  ogtc y.percentK 70 &&
  ogt2 y.percentK y.percentD &&
  volSurge y.volume y.vol10avg

/-- `df["Volume"].rolling(window=10).mean()` at position `i` (line 154):
the mean of the 10 volumes ending at `i` (current bar included), NaN for
the first 9 positions. -/
def vol10avgAt (vols : List ℚ) (i : Nat) : Option ℚ :=
  if 9 ≤ i ∧ i < vols.length then
    some (((vols.drop (i - 9)).take 10).sum / 10)
  else
    none

/-- The snapshot of row `i`: raw fields from the bar, indicator columns
from the `ta` output, and the rolling volume average computed from the
volume column. -/
def snapshotAt (bars : List Bar) (tav : List TAValues) (i : Nat) : Snapshot :=
  let b := bars.getD i ⟨0, 0⟩
  let t := tav.getD i noneTA
  { close := b.close
    volume := b.volume
    rsi := t.rsi
    adx := t.adx
    plusDI := t.plusDI
    minusDI := t.minusDI
    percentK := t.percentK
    percentD := t.percentD
    vol10avg := vol10avgAt (bars.map Bar.volume) i }

/-- Round half to even (the rounding of Python's `round`) of a rational. -/
def rhe (q : ℚ) : ℤ :=
  let f := ⌊q⌋
  let r := q - f
  if r < 1/2 then f
  else if 1/2 < r then f + 1
  else if f % 2 = 0 then f else f + 1

/-- `round(x, 2)`: round to two decimal places, half to even. -/
def round2 (q : ℚ) : ℚ := (rhe (q * 100) : ℚ) / 100

/-- `int(x)`: truncation toward zero. -/
def intTrunc (q : ℚ) : ℤ := if 0 ≤ q then ⌊q⌋ else ⌈q⌉

/-- A result record as appended on lines 170-183: display-rounded copies of
the evaluated snapshot's fields plus the derived `DI_Diff` and
`Vol_Ratio`. -/
structure MatchRecord where
  ticker : String
  price : ℚ
  adx : ℚ
  plusDI : ℚ
  minusDI : ℚ
  di_diff : ℚ
  rsi : ℚ
  percentK : ℚ
  percentD : ℚ
  volume : ℤ
  vol10avg : ℤ
  vol_ratio : ℚ
deriving DecidableEq, Repr

/-- Builds the record of lines 170-183 from the matched snapshot.  The
indicator fields are read with default 0; a record is only ever built when
the criteria hold, which forces every field to be present. -/
def mkRecord (t : String) (y : Snapshot) : MatchRecord :=
  { ticker := t
    price := round2 y.close
    adx := round2 (y.adx.getD 0)
    plusDI := round2 (y.plusDI.getD 0)
    minusDI := round2 (y.minusDI.getD 0)
    di_diff := round2 (y.plusDI.getD 0 - y.minusDI.getD 0)
    rsi := round2 (y.rsi.getD 0)
    percentK := round2 (y.percentK.getD 0)
    percentD := round2 (y.percentD.getD 0)
    volume := intTrunc y.volume
    vol10avg := intTrunc (y.vol10avg.getD 0)
    vol_ratio := round2 (y.volume / y.vol10avg.getD 0) }

/-- The per-ticker evaluation of lines 139-183: skip when fewer than 20
bars are available, otherwise evaluate the rule on the second-to-last row
(`df.iloc[-2]`) and on a match build the result record. -/
def scanTicker (t : String) (bars : List Bar) (tav : List TAValues) :
    Option MatchRecord :=
  if bars.length < 20 then none
  else if explosionCriteria defaultCriteria (snapshotAt bars tav (bars.length - 2))
  then some (mkRecord t (snapshotAt bars tav (bars.length - 2)))
  else none

/-- The snapshots of a fixed dataset that satisfy the rule under the given
thresholds. -/
def matchSet (c : ScanCriteria) (snaps : List Snapshot) : List Snapshot :=
  snaps.filter (explosionCriteria c)

/-- The embedded ultimate-fallback ticker list of lines 101-108. -/
def fallbackTickers : List String :=
  ["AAPL", "MSFT", "GOOGL", "AMZN", "TSLA", "META", "NVDA", "NFLX",
   "ADBE", "CRM", "PYPL", "INTC", "AMD", "QCOM", "TXN", "AVGO",
   "ORCL", "IBM", "NOW", "INTU", "MU", "AMAT", "ADI", "LRCX",
   "KLAC", "MCHP", "SNPS", "CDNS", "FTNT", "PANW", "CRWD", "ZS",
   "DDOG", "NET", "SNOW", "PLTR", "COIN", "SQ", "SHOP", "ROKU",
   "ZM", "DOCU", "OKTA", "TWLO", "SPLK", "WORK", "DBX", "BOX"]

/-- The symbol normalization applied to the secondary (Wikipedia) source:
`t.replace(".", "-")` (line 95). -/
def normalizeSymbol (s : String) : String := s.replace "." "-"

/-- The universe resolution chain of lines 81-109: the primary source's
list when it succeeds, else the secondary source's list with symbol
normalization, else the embedded fallback list.  A source outcome is
`some l` (it returned list `l`) or `none` (it raised). -/
def resolveTickers (src1 src2 : Option (List String)) : List String :=
  match src1 with
  | some l => l
  | none =>
    match src2 with
    | some l => l.map normalizeSymbol
    | none => fallbackTickers

/-- Outcome of the single `yf.download` call of line 137 for one ticker:
a bar series, a rate-limit exception, or any other exception. -/
inductive FetchResult where
  | ok (bars : List Bar)
  | rateLimited
  | err
deriving DecidableEq

/-- Observable trace of one iteration of the ticker loop (lines 131-188):
the match it produced (if any), how many provider requests it issued, and
the durations of the sleep calls it made, in order. -/
structure StepTrace where
  result : Option MatchRecord
  requests : Nat
  sleeps : List ℚ
deriving DecidableEq

/-- One iteration of the per-ticker loop: a single download attempt inside
`try`; any exception (rate limit included) is caught by the bare handler of
lines 186-188 and the ticker skipped.  The loop body contains no sleep
call and no retry. -/
def tickerStep (t : String) (r : FetchResult) (tav : List TAValues) : StepTrace :=
  match r with
  | .ok bars => ⟨scanTicker t bars tav, 1, []⟩
  | .rateLimited => ⟨none, 1, []⟩
  | .err => ⟨none, 1, []⟩

/-- The figures the summary of lines 208-219 reports about the run: the
universe size (`len(tickers)`) and the number of setups found
(`len(results_df)`).  No per-symbol failure information is kept. -/
structure ScanStats where
  totalScanned : Nat
  setupsFound : Nat
deriving DecidableEq

/-- The whole scan loop over a universe with its fetch outcomes: collect
the matches in scan order and report the summary figures. -/
def runScan (inputs : List (String × FetchResult × List TAValues)) :
    List MatchRecord × ScanStats :=
  let found := inputs.filterMap (fun x => (tickerStep x.1 x.2.1 x.2.2).result)
  (found, ⟨inputs.length, found.length⟩)

/-- The seven conditions of the rule, written out as propositions over a
snapshot, with the default thresholds, following the specification's
wording. -/
def SevenConditions (y : Snapshot) : Prop :=
  (3 ≤ y.close ∧ y.close ≤ 15) ∧
  (500000 : ℚ) < y.volume ∧
  (∃ a, y.adx = some a ∧ 40 ≤ a) ∧
  (∃ p m, y.plusDI = some p ∧ y.minusDI = some m ∧ 10 ≤ p - m) ∧
  (∃ r, y.rsi = some r ∧ 60 ≤ r ∧ r ≤ 75) ∧
  (∃ k, y.percentK = some k ∧ 70 < k) ∧
  (∃ k d, y.percentK = some k ∧ y.percentD = some d ∧ d < k) ∧
  (∃ v, y.vol10avg = some v ∧ 2 * v < y.volume)

/-- The scenario snapshot of the specification: close 10, volume 1,000,000,
ADX 45, +DI 22, -DI 10 (spread 12), RSI 68, %K 75, %D 60, Vol10Avg
400,000. -/
def demoSnapshot : Snapshot :=
  { close := 10
    volume := 1000000
    rsi := some 68
    adx := some 45
    plusDI := some 22
    minusDI := some 10
    percentK := some 75
    percentD := some 60
    vol10avg := some 400000 }

/-- A 20-bar series of identical bars, used to instantiate universally
quantified statements. -/
def w1Bars : List Bar := List.replicate 20 ⟨10, 1000000⟩

/-- A snapshot whose RSI column is missing (NaN). -/
def nanSnapshot : Snapshot :=
  { demoSnapshot with rsi := none }

/-- A 20-bar no-match series: close 100 sits outside the price band. -/
def noMatchBars : List Bar := List.replicate 20 ⟨100, 0⟩

theorem oge_iff (x : Option ℚ) (c : ℚ) :
    oge x c = true ↔ ∃ a, x = some a ∧ c ≤ a := by
  cases x <;> simp [oge]

theorem ogtc_iff (x : Option ℚ) (c : ℚ) :
    ogtc x c = true ↔ ∃ a, x = some a ∧ c < a := by
  cases x <;> simp [ogtc]

theorem ogt2_iff (x y : Option ℚ) :
    ogt2 x y = true ↔ ∃ a b, x = some a ∧ y = some b ∧ b < a := by
  cases x <;> cases y <;> simp [ogt2]

theorem ochain_iff (lo : ℚ) (x : Option ℚ) (hi : ℚ) :
    ochain lo x hi = true ↔ ∃ a, x = some a ∧ lo ≤ a ∧ a ≤ hi := by
  cases x <;> simp [ochain]

theorem volSurge_iff (vol : ℚ) (x : Option ℚ) :
    volSurge vol x = true ↔ ∃ a, x = some a ∧ 2 * a < vol := by
  cases x <;> simp [volSurge]

theorem osub_some_iff (x y : Option ℚ) (s : ℚ) :
    osub x y = some s ↔ ∃ a b, x = some a ∧ y = some b ∧ a - b = s := by
  cases x <;> cases y <;> simp [osub]

theorem explosion_iff (y : Snapshot) :
    explosionCriteria defaultCriteria y = true ↔ SevenConditions y := by
  simp only [explosionCriteria, defaultCriteria, SevenConditions,
    Bool.and_eq_true, decide_eq_true_eq, oge_iff, ogtc_iff, ogt2_iff,
    ochain_iff, volSurge_iff, osub_some_iff, and_assoc]
  aesop

/-- C1: for every bar series of at least 20 bars, the evaluator produces a
match for the second-to-last bar if and only if all seven conjunctive
conditions hold on that bar, with the default thresholds min_price = 3,
max_price = 15, min_volume = 500000, min_adx = 40. -/
theorem c1_match_iff_seven_conditions (t : String) (bars : List Bar)
    (tav : List TAValues) (h : 20 ≤ bars.length) :
    (scanTicker t bars tav).isSome = true ↔
      SevenConditions (snapshotAt bars tav (bars.length - 2)) := by
  rw [← explosion_iff]
  unfold scanTicker
  rw [if_neg (by omega)]
  cases hc : explosionCriteria defaultCriteria (snapshotAt bars tav (bars.length - 2)) <;>
    simp [hc]

theorem c1_match_iff_seven_conditions_witness :
    (scanTicker "AAPL" w1Bars []).isSome = true ↔
      SevenConditions (snapshotAt w1Bars [] (w1Bars.length - 2)) :=
  c1_match_iff_seven_conditions "AAPL" w1Bars [] (by decide)

/-- C2: the scenario snapshot (close 10, volume 1,000,000, ADX 45, DI
spread 12, RSI 68, %K 75 > %D 60, Vol10Avg 400,000) matches, and the
produced record's Vol_Ratio is 2.5 = volume / Vol10Avg rounded to two
decimal places. -/
theorem c2_scenario_match_and_ratio :
    explosionCriteria defaultCriteria demoSnapshot = true ∧
    (mkRecord "AAPL" demoSnapshot).vol_ratio = 5 / 2 := by
  constructor
  · rw [explosion_iff]
    exact ⟨⟨by norm_num [demoSnapshot], by norm_num [demoSnapshot]⟩,
      by norm_num [demoSnapshot],
      ⟨45, rfl, by norm_num⟩,
      ⟨22, 10, rfl, rfl, by norm_num⟩,
      ⟨68, rfl, by norm_num, by norm_num⟩,
      ⟨75, rfl, by norm_num⟩,
      ⟨75, 60, rfl, rfl, by norm_num⟩,
      ⟨400000, rfl, by norm_num [demoSnapshot]⟩⟩
  · show round2 (demoSnapshot.volume / demoSnapshot.vol10avg.getD 0) = 5 / 2
    have h1 : demoSnapshot.volume / demoSnapshot.vol10avg.getD 0 * 100 = 250 := by
      norm_num [demoSnapshot]
    rw [round2, h1]
    have h2 : rhe 250 = 250 := by
      simp only [rhe]
      norm_num
    rw [h2]
    norm_num

/-- C3: a snapshot with any indicator field missing (NaN from insufficient
lookback) never matches, under any thresholds; evaluation is a total
function, so it cannot raise. -/
theorem c3_invalid_indicator_nomatch (c : ScanCriteria) (y : Snapshot)
    (h : y.rsi = none ∨ y.adx = none ∨ y.plusDI = none ∨ y.minusDI = none ∨
      y.percentK = none ∨ y.percentD = none ∨ y.vol10avg = none) :
    explosionCriteria c y = false := by
  rw [Bool.eq_false_iff]
  intro hc
  simp only [explosionCriteria, Bool.and_eq_true, decide_eq_true_eq, oge_iff,
    ogtc_iff, ogt2_iff, ochain_iff, volSurge_iff, osub_some_iff] at hc
  rcases h with h | h | h | h | h | h | h <;> rw [h] at hc <;> simp at hc

theorem c3_invalid_indicator_nomatch_witness :
    explosionCriteria defaultCriteria nanSnapshot = false :=
  c3_invalid_indicator_nomatch defaultCriteria nanSnapshot (Or.inl rfl)

/-- C4: a fetched series with fewer than 20 bars yields no snapshot and no
match: the guard of line 139 skips the symbol before any indicator is
computed, and the per-ticker step is total, so nothing is raised. -/
theorem c4_short_series_skipped (t : String) (bars : List Bar)
    (tav : List TAValues) (h : bars.length < 20) :
    scanTicker t bars tav = none := by
  unfold scanTicker
  rw [if_pos h]

theorem c4_short_series_skipped_witness :
    scanTicker "AAPL" [⟨10, 1000000⟩] [] = none :=
  c4_short_series_skipped "AAPL" [⟨10, 1000000⟩] [] (by decide)

/-- C5: when both remote ticker sources fail, resolution returns exactly
the embedded fallback list, which is non-empty and duplicate-free. -/
theorem c5_fallback_universe :
    resolveTickers none none = fallbackTickers ∧
    0 < fallbackTickers.length ∧ fallbackTickers.Nodup :=
  ⟨rfl, by decide, by decide⟩

/-- C6 counterexample: a successful primary source is returned as-is, so
resolution can return an empty universe and can return a universe with
duplicate symbols — the code performs no deduplication. -/
theorem c6_counterexample :
    resolveTickers (some []) none = [] ∧
    ¬ (resolveTickers (some ["AAPL", "AAPL"]) none).Nodup :=
  ⟨rfl, by decide⟩

/-- C6 amended: resolution always terminates and never raises (it is a
total function of the source outcomes); when both remote sources fail it
returns the non-empty, duplicate-free fallback list; but a successful
source's list is returned unchanged (the secondary's after symbol
normalization): it is not deduplicated and may be empty. -/
theorem c6_amended_resolution_cases :
    (∀ (l : List String) (s2 : Option (List String)),
      resolveTickers (some l) s2 = l) ∧
    (∀ l : List String, resolveTickers none (some l) = l.map normalizeSymbol) ∧
    resolveTickers none none = fallbackTickers ∧
    0 < fallbackTickers.length ∧ fallbackTickers.Nodup :=
  ⟨fun _ _ => rfl, fun _ => rfl, rfl, by decide, by decide⟩

/-- C7 counterexample: on a rate-limit outcome the loop body issues exactly
one provider request — there is no retry (the claim requires a second
attempt) — and it performs no pacing sleep at all. -/
theorem c7_counterexample :
    (tickerStep "AAPL" FetchResult.rateLimited []).requests ≠ 2 ∧
    (tickerStep "AAPL" FetchResult.rateLimited []).sleeps = [] := by
  decide

/-- C7 amended: every per-ticker iteration issues exactly one provider
request and sleeps never, whatever the outcome; a rate-limit signal is
swallowed by the bare exception handler and the symbol skipped with no
backoff, no retry, and no per-symbol failure record. -/
theorem c7_amended_no_retry_no_pacing (t : String) (r : FetchResult)
    (tav : List TAValues) :
    (tickerStep t r tav).requests = 1 ∧ (tickerStep t r tav).sleeps = [] ∧
    (tickerStep t FetchResult.rateLimited tav).result = none := by
  cases r <;> exact ⟨rfl, rfl, rfl⟩

/-- C8 counterexample: a run whose only fetch raised and a run whose only
fetch succeeded with a non-matching series produce identical output —
matches and summary figures — so a zero-match run is not distinguishable
from a run that obtained no data, and no typed failure reason exists. -/
theorem c8_counterexample :
    runScan [("AAPL", FetchResult.err, [])] =
      runScan [("AAPL", FetchResult.ok noMatchBars, [])] := by
  decide

/-- C8 amended: per-symbol failures are caught at the loop boundary and
never abort the run, but they are silently discarded: the run's summary
holds only the universe size and the match count, with no typed failure
reasons. -/
theorem c8_amended_stats_shape
    (inputs : List (String × FetchResult × List TAValues)) :
    (runScan inputs).2.totalScanned = inputs.length ∧
    (runScan inputs).2.setupsFound = (runScan inputs).1.length :=
  ⟨rfl, rfl⟩

/-- The rule conditions written out as propositions over an arbitrary
threshold set. -/
def RuleConditions (c : ScanCriteria) (y : Snapshot) : Prop :=
  (c.min_price ≤ y.close ∧ y.close ≤ c.max_price) ∧
  c.min_volume < y.volume ∧
  (∃ a, y.adx = some a ∧ c.min_adx ≤ a) ∧
  (∃ p m, y.plusDI = some p ∧ y.minusDI = some m ∧ 10 ≤ p - m) ∧
  (∃ r, y.rsi = some r ∧ 60 ≤ r ∧ r ≤ 75) ∧
  (∃ k, y.percentK = some k ∧ 70 < k) ∧
  (∃ k d, y.percentK = some k ∧ y.percentD = some d ∧ d < k) ∧
  (∃ v, y.vol10avg = some v ∧ 2 * v < y.volume)

theorem explosion_eq_true_iff (c : ScanCriteria) (y : Snapshot) :
    explosionCriteria c y = true ↔ RuleConditions c y := by
  simp only [explosionCriteria, RuleConditions, Bool.and_eq_true,
    decide_eq_true_eq, oge_iff, ogtc_iff, ogt2_iff, ochain_iff,
    volSurge_iff, osub_some_iff, and_assoc]
  aesop

/-- `cT` tightens `c`: raised price floor, lowered price cap, raised
volume floor, raised ADX floor. -/
def Tightened (c cT : ScanCriteria) : Prop :=
  c.min_price ≤ cT.min_price ∧ cT.max_price ≤ c.max_price ∧
  c.min_volume ≤ cT.min_volume ∧ c.min_adx ≤ cT.min_adx

theorem explosion_mono (c cT : ScanCriteria) (h : Tightened c cT)
    (y : Snapshot) (hy : explosionCriteria cT y = true) :
    explosionCriteria c y = true := by
  rw [explosion_eq_true_iff] at hy ⊢
  obtain ⟨h1, h2, h3, h4⟩ := h
  obtain ⟨⟨ha, hb⟩, hc, ⟨a, hA, hA2⟩, hDI, hRSI, hK, hKD, hV⟩ := hy
  exact ⟨⟨le_trans h1 ha, le_trans hb h2⟩, lt_of_le_of_lt h3 hc,
    ⟨a, hA, le_trans h4 hA2⟩, hDI, hRSI, hK, hKD, hV⟩

/-- C9: tightening the thresholds — raising the price floor, lowering the
price cap, raising the volume floor, raising the ADX floor, in any
combination (single tightenings included) — yields a match set over a
fixed dataset that is a subset of the original match set. -/
theorem c9_tightening_shrinks_matches (c cT : ScanCriteria)
    (h : Tightened c cT) (snaps : List Snapshot) :
    matchSet cT snaps ⊆ matchSet c snaps := by
  intro s hs
  simp only [matchSet, List.mem_filter] at hs ⊢
  exact ⟨hs.1, explosion_mono c cT h s hs.2⟩

theorem c9_tightening_shrinks_matches_witness :
    matchSet ⟨3, 15, 500000, 45⟩ [demoSnapshot] ⊆
      matchSet defaultCriteria [demoSnapshot] :=
  c9_tightening_shrinks_matches defaultCriteria ⟨3, 15, 500000, 45⟩
    ⟨by norm_num [defaultCriteria], by norm_num [defaultCriteria],
     by norm_num [defaultCriteria], by norm_num [defaultCriteria]⟩
    [demoSnapshot]

theorem window_mem (vols : List ℚ) (i : Nat) (h9 : 9 ≤ i)
    (hlt : i < vols.length) :
    vols[i] ∈ (vols.drop (i - 9)).take 10 := by
  have hlen : ((vols.drop (i - 9)).take 10).length = 10 := by
    simp only [List.length_take, List.length_drop]
    omega
  have h9w : 9 < ((vols.drop (i - 9)).take 10).length := by omega
  have hg : ((vols.drop (i - 9)).take 10)[9] = vols[i] := by
    rw [List.getElem_take, List.getElem_drop]
    congr 1
    omega
  exact hg ▸ List.getElem_mem h9w

theorem vol10avg_pos (bars : List Bar) (i : Nat)
    (hvol : ∀ b ∈ bars, 0 ≤ b.volume) (v : ℚ)
    (hv : vol10avgAt (bars.map Bar.volume) i = some v)
    (hposvol : 0 < (bars.getD i ⟨0, 0⟩).volume) : 0 < v := by
  unfold vol10avgAt at hv
  split at hv
  case isTrue hcond =>
    obtain ⟨h9, hlt⟩ := hcond
    injection hv with hv
    have hib : i < bars.length := by simpa using hlt
    have hmem : (bars.map Bar.volume)[i] ∈
        ((bars.map Bar.volume).drop (i - 9)).take 10 :=
      window_mem _ i h9 hlt
    have hvi : (bars.map Bar.volume)[i] = (bars.getD i ⟨0, 0⟩).volume := by
      rw [List.getElem_map, List.getD_eq_getElem bars ⟨0, 0⟩ hib]
    have hnn : ∀ x ∈ ((bars.map Bar.volume).drop (i - 9)).take 10, 0 ≤ x := by
      intro x hx
      have hxv : x ∈ bars.map Bar.volume :=
        List.drop_subset _ _ (List.take_subset _ _ hx)
      obtain ⟨b, hb, rfl⟩ := List.mem_map.mp hxv
      exact hvol b hb
    have hsum : (bars.map Bar.volume)[i] ≤
        (((bars.map Bar.volume).drop (i - 9)).take 10).sum :=
      List.single_le_sum hnn _ hmem
    have hs : 0 < (((bars.map Bar.volume).drop (i - 9)).take 10).sum :=
      lt_of_lt_of_le (by rw [hvi]; exact hposvol) hsum
    rw [← hv]
    positivity
  case isFalse => exact absurd hv (by simp)

/-- C10: whenever a match record is created, the Vol_Ratio division is
never by zero: a matching bar has volume above 500,000, that volume is one
of the 10 values averaged into Vol10Avg (rolling mean including the
current bar), so with all volumes nonnegative the Vol10Avg of a matching
bar is present and strictly positive. -/
theorem c10_vol_ratio_denominator_pos (t : String) (bars : List Bar)
    (tav : List TAValues) (hvol : ∀ b ∈ bars, 0 ≤ b.volume)
    (hm : (scanTicker t bars tav).isSome = true) :
    ∃ v, (snapshotAt bars tav (bars.length - 2)).vol10avg = some v ∧ 0 < v := by
  unfold scanTicker at hm
  by_cases h20 : bars.length < 20
  · rw [if_pos h20] at hm
    simp at hm
  · rw [if_neg h20] at hm
    by_cases hc : explosionCriteria defaultCriteria
        (snapshotAt bars tav (bars.length - 2)) = true
    · rw [explosion_eq_true_iff] at hc
      obtain ⟨-, hv500, -, -, -, -, -, ⟨v, hv, -⟩⟩ := hc
      refine ⟨v, hv, ?_⟩
      have hv2 : vol10avgAt (bars.map Bar.volume) (bars.length - 2) = some v := hv
      have hpos : (0 : ℚ) < (snapshotAt bars tav (bars.length - 2)).volume :=
        lt_trans (by norm_num [defaultCriteria]) hv500
      exact vol10avg_pos bars (bars.length - 2) hvol v hv2 hpos
    · rw [if_neg hc] at hm
      simp at hm

/-- The indicator row backing the concrete matching series below. -/
def goodTA : TAValues := ⟨some 68, some 45, some 22, some 10, some 75, some 60⟩

/-- A concrete 20-bar series whose second-to-last bar matches the rule. -/
def cBars : List Bar :=
  [⟨10, 0⟩, ⟨10, 0⟩, ⟨10, 0⟩, ⟨10, 0⟩, ⟨10, 0⟩, ⟨10, 0⟩, ⟨10, 0⟩, ⟨10, 0⟩,
   ⟨10, 0⟩, ⟨10, 0⟩, ⟨10, 0⟩, ⟨10, 0⟩, ⟨10, 0⟩, ⟨10, 0⟩, ⟨10, 0⟩, ⟨10, 0⟩,
   ⟨10, 0⟩, ⟨10, 0⟩, ⟨10, 1000001⟩, ⟨10, 0⟩]

/-- Indicator rows aligned with `cBars`. -/
def cTAs : List TAValues :=
  [noneTA, noneTA, noneTA, noneTA, noneTA, noneTA, noneTA, noneTA,
   noneTA, noneTA, noneTA, noneTA, noneTA, noneTA, noneTA, noneTA,
   noneTA, noneTA, goodTA, noneTA]

theorem cBars_match : (scanTicker "AAPL" cBars cTAs).isSome = true := by
  have hclose : (snapshotAt cBars cTAs 18).close = 10 := rfl
  have hvol18 : (snapshotAt cBars cTAs 18).volume = 1000001 := rfl
  have hv10 : (snapshotAt cBars cTAs 18).vol10avg = some (1000001 / 10) := by
    show vol10avgAt (cBars.map Bar.volume) 18 = some (1000001 / 10)
    unfold vol10avgAt
    rw [if_pos (by decide)]
    norm_num [cBars]
  have hC : explosionCriteria defaultCriteria (snapshotAt cBars cTAs 18) = true := by
    rw [explosion_eq_true_iff]
    refine ⟨⟨?_, ?_⟩, ?_, ⟨45, rfl, by norm_num [defaultCriteria]⟩,
      ⟨22, 10, rfl, rfl, by norm_num⟩,
      ⟨68, rfl, by norm_num, by norm_num⟩, ⟨75, rfl, by norm_num⟩,
      ⟨75, 60, rfl, rfl, by norm_num⟩, ⟨1000001 / 10, hv10, ?_⟩⟩
    · rw [hclose]; norm_num [defaultCriteria]
    · rw [hclose]; norm_num [defaultCriteria]
    · rw [hvol18]; norm_num [defaultCriteria]
    · rw [hvol18]; norm_num
  unfold scanTicker
  rw [if_neg (by norm_num [cBars])]
  rw [show cBars.length - 2 = 18 by norm_num [cBars]]
  rw [if_pos hC]
  rfl

theorem c10_vol_ratio_denominator_pos_witness :
    ∃ v, (snapshotAt cBars cTAs (cBars.length - 2)).vol10avg = some v ∧ 0 < v :=
  c10_vol_ratio_denominator_pos "AAPL" cBars cTAs (by decide) cBars_match
